import Mathlib

/-!
Verification of the sentiment-analysis inference service
(`module3/milestone2/app/app.py`).

The Python source is embedded shallowly:

* `POSITIVE_WORDS` / `NEGATIVE_WORDS` — the two keyword sets, kept as
  `List String` in the order they appear in the source (each is duplicate
  free, proved below, so list length agrees with set cardinality).
* `predict_sentiment` — the classifier.  The Python call `text.lower()` is
  `pyLower` (ASCII case mapping via `Char.toLower`, which is exactly what
  `str.lower` does on the ASCII strings involved), `str.split()` is
  `pySplit` (split on runs of whitespace, dropping empty tokens), the
  `set(...)` / `len(words & WORDS)` combination is a count, over the
  duplicate-free lexicon list, of the words occurring among the tokens.
  Python floats are modelled as exact rationals; `round(x, 2)` is
  `pyRound2`, rounding half to even at two decimal places, as the
  Python builtin `round` does.
* the `/predict` Flask handler — `predictHandler`, a function from the
  parsed request body (`Option Json`; `none` for an absent or unparseable
  body and `some Json.null` for the JSON value `null`, both of which
  `request.get_json(silent=True)` maps to Python `None`) to the request
  outcome: either a status code, response body and emitted log lines, or
  a crash.  The Python membership test `"text" in data` and the
  subscript `data["text"]` raise `TypeError` on non-dict bodies (always
  on numbers and booleans; on strings and arrays whenever the membership
  test passes), which escapes the handler, so Flask answers 500 with no
  application log line — `pyInText` and `pySubscriptText` model those
  type-dependent semantics, `HandlerResult.crash` the escape.
-/

def POSITIVE_WORDS : List String :=
  ["good", "great", "excellent", "amazing", "wonderful",
   "fantastic", "love", "best", "happy", "awesome",
   "brilliant", "superb", "enjoy", "liked", "perfect",
   "recommend", "outstanding", "positive", "pleasant"]

def NEGATIVE_WORDS : List String :=
  ["bad", "terrible", "awful", "horrible", "worst",
   "hate", "poor", "disappointing", "boring", "ugly",
   "negative", "annoying", "dislike", "mediocre", "fail",
   "broken", "useless", "frustrating", "dreadful"]

/-- The whitespace characters that the Python method `str.split()` splits on
(for the ASCII range): space, tab, newline, carriage return,
vertical tab, form feed. -/
def isPySpace (c : Char) : Bool :=
  decide (c = ' ' ∨ c = '\t' ∨ c = '\n' ∨ c = '\r' ∨ c = '\x0b' ∨ c = '\x0c')

/-- The Python method `str.lower()` (ASCII case mapping). -/
def pyLower (s : String) : String :=
  ⟨s.data.map Char.toLower⟩

/-- Worker for `pySplit`: scans the character list, accumulating the
current (reversed) word, emitting it when whitespace or the end of the
input is reached; empty words are dropped, so runs of whitespace
collapse, exactly as the argumentless Python `str.split()`. -/
def splitWSAux : List Char → List Char → List String
  | [], [] => []
  | [], c :: cs => [String.mk (c :: cs).reverse]
  | c :: rest, cur =>
    if isPySpace c then
      match cur with
      | [] => splitWSAux rest []
      | _ :: _ => String.mk cur.reverse :: splitWSAux rest []
    else
      splitWSAux rest (c :: cur)

/-- The Python method `str.split()` with no separator argument. -/
def pySplit (s : String) : List String :=
  splitWSAux s.data []

/-- The token list `text.lower().split()` from `predict_sentiment`. -/
def tokens (text : String) : List String :=
  pySplit (pyLower text)

/-- The count `len(set(text.lower().split()) & POSITIVE_WORDS)`: since
`POSITIVE_WORDS` is duplicate free, the size of the intersection is the
number of lexicon entries occurring among the tokens. -/
def pos_count (text : String) : Nat :=
  (POSITIVE_WORDS.filter (fun w => decide (w ∈ tokens text))).length

/-- The count `len(set(text.lower().split()) & NEGATIVE_WORDS)`. -/
def neg_count (text : String) : Nat :=
  (NEGATIVE_WORDS.filter (fun w => decide (w ∈ tokens text))).length

/-- The Python builtin `min` on two numbers: the first argument when the
two compare equal. -/
def pymin (a b : ℚ) : ℚ :=
  if a ≤ b then a else b

/-- Round a rational to the nearest integer, halves to the even
neighbour — the rounding used by the Python builtin `round`. -/
def roundHalfEven (q : ℚ) : ℤ :=
  if q - q.floor < 1/2 then q.floor
  else if q - q.floor > 1/2 then q.floor + 1
  else if q.floor % 2 = 0 then q.floor else q.floor + 1

/-- The Python call `round(x, 2)`. -/
def pyRound2 (q : ℚ) : ℚ :=
  (roundHalfEven (q * 100) : ℚ) / 100

structure PredictionResult where
  label : String
  confidence : ℚ
deriving DecidableEq, Repr

/-- The classifier `predict_sentiment` from `app.py`, lines 27–40. -/
def predict_sentiment (text : String) : PredictionResult :=
  let p := pos_count text
  let n := neg_count text
  if p > n then
    ⟨"positive", pyRound2 (pymin (1/2 + (1/10) * (p : ℚ)) (99/100))⟩
  else if n > p then
    ⟨"negative", pyRound2 (pymin (1/2 + (1/10) * (n : ℚ)) (99/100))⟩
  else
    ⟨"neutral", pyRound2 (1/2)⟩

example : tokens "This movie is GREAT and amazing" = ["this", "movie", "is", "great", "and", "amazing"] := by decide
example : pos_count "This movie is great and amazing" = 2 := by decide
example : neg_count "This movie is terrible and awful" = 2 := by decide
example : pos_count "good good good" = 1 := by decide
example : pos_count "The sky is blue today" = 0 := by decide

/-! ### Arithmetic facts about the confidence formula -/

theorem pymin_eq_min (a b : ℚ) : pymin a b = min a b :=
  (min_def a b).symm

theorem ratFloor_intCast (n : ℤ) : ((n : ℚ)).floor = n := by
  rw [Rat.floor_def']
  simp

theorem roundHalfEven_intCast (n : ℤ) : roundHalfEven (n : ℚ) = n := by
  have h : ((n : ℚ)).floor = n := ratFloor_intCast n
  simp only [roundHalfEven, h]
  norm_num

theorem pyRound2_div100 (m : ℤ) : pyRound2 ((m : ℚ) / 100) = (m : ℚ) / 100 := by
  unfold pyRound2
  rw [div_mul_cancel₀ _ (by norm_num : (100 : ℚ) ≠ 0), roundHalfEven_intCast]

/-- Rounding as the specification words it: "standard rounding, not
truncation", at two decimal places (the Mathlib `round` function is
round-half-up). -/
def roundSpec2 (q : ℚ) : ℚ :=
  (round (q * 100) : ℚ) / 100

theorem roundSpec2_div100 (m : ℤ) : roundSpec2 ((m : ℚ) / 100) = (m : ℚ) / 100 := by
  unfold roundSpec2
  rw [div_mul_cancel₀ _ (by norm_num : (100 : ℚ) ≠ 0), round_intCast]

theorem pyRound2_conf (c : ℕ) :
    pyRound2 (pymin (1/2 + (1/10) * (c : ℚ)) (99/100)) =
      if c ≤ 4 then ((50 + 10 * c : ℕ) : ℚ) / 100 else 99/100 := by
  by_cases hc : c ≤ 4
  · have hcq : (c : ℚ) ≤ 4 := by exact_mod_cast hc
    have hle : (1/2 + (1/10) * (c : ℚ)) ≤ 99/100 := by linarith
    have hval : (1/2 + (1/10) * (c : ℚ)) = (((50 + 10 * c : ℕ) : ℤ) : ℚ) / 100 := by
      push_cast
      ring
    rw [if_pos hc, pymin, if_pos hle, hval, pyRound2_div100]
    push_cast
    rfl
  · have hcq : (5 : ℚ) ≤ (c : ℚ) := by exact_mod_cast Nat.le_of_lt_succ (by omega)
    have hgt : ¬ (1/2 + (1/10) * (c : ℚ)) ≤ 99/100 := by
      intro h
      linarith
    have h99 : (99/100 : ℚ) = ((99 : ℤ) : ℚ) / 100 := by norm_num
    rw [if_neg hc, pymin, if_neg hgt, h99, pyRound2_div100]

theorem roundSpec2_conf (c : ℕ) :
    roundSpec2 (min (1/2 + (1/10) * (c : ℚ)) (99/100)) =
      if c ≤ 4 then ((50 + 10 * c : ℕ) : ℚ) / 100 else 99/100 := by
  by_cases hc : c ≤ 4
  · have hcq : (c : ℚ) ≤ 4 := by exact_mod_cast hc
    have hle : (1/2 + (1/10) * (c : ℚ)) ≤ 99/100 := by linarith
    have hval : (1/2 + (1/10) * (c : ℚ)) = (((50 + 10 * c : ℕ) : ℤ) : ℚ) / 100 := by
      push_cast
      ring
    rw [if_pos hc, min_eq_left hle, hval, roundSpec2_div100]
    push_cast
    rfl
  · have hcq : (5 : ℚ) ≤ (c : ℚ) := by exact_mod_cast Nat.le_of_lt_succ (by omega)
    have hle : (99/100 : ℚ) ≤ 1/2 + (1/10) * (c : ℚ) := by linarith
    have h99 : (99/100 : ℚ) = ((99 : ℤ) : ℚ) / 100 := by norm_num
    rw [if_neg hc, min_eq_right hle, h99, roundSpec2_div100]

theorem pyRound2_half : pyRound2 (1/2) = 1/2 := by
  have h : (1/2 : ℚ) = ((50 : ℤ) : ℚ) / 100 := by norm_num
  rw [h, pyRound2_div100]

theorem predict_sentiment_def (text : String) :
    predict_sentiment text =
      if pos_count text > neg_count text then
        ⟨"positive", pyRound2 (pymin (1/2 + (1/10) * (pos_count text : ℚ)) (99/100))⟩
      else if neg_count text > pos_count text then
        ⟨"negative", pyRound2 (pymin (1/2 + (1/10) * (neg_count text : ℚ)) (99/100))⟩
      else
        ⟨"neutral", pyRound2 (1/2)⟩ := rfl

theorem confFormula_bounds (c : ℕ) :
    1/2 ≤ pyRound2 (pymin (1/2 + (1/10) * (c : ℚ)) (99/100)) ∧
      pyRound2 (pymin (1/2 + (1/10) * (c : ℚ)) (99/100)) ≤ 99/100 := by
  rw [pyRound2_conf]
  by_cases hc : c ≤ 4
  · rw [if_pos hc]
    have hcq : (0 : ℚ) ≤ (c : ℚ) := Nat.cast_nonneg c
    have hcq4 : (c : ℚ) ≤ 4 := by exact_mod_cast hc
    have hv : ((50 + 10 * c : ℕ) : ℚ) = 50 + 10 * (c : ℚ) := by push_cast; ring
    rw [hv]
    constructor <;> [linarith; linarith]
  · rw [if_neg hc]
    norm_num

theorem confFormula_cases (c : ℕ) (h : 1 ≤ c) :
    pyRound2 (pymin (1/2 + (1/10) * (c : ℚ)) (99/100)) = 3/5 ∨
    pyRound2 (pymin (1/2 + (1/10) * (c : ℚ)) (99/100)) = 7/10 ∨
    pyRound2 (pymin (1/2 + (1/10) * (c : ℚ)) (99/100)) = 4/5 ∨
    pyRound2 (pymin (1/2 + (1/10) * (c : ℚ)) (99/100)) = 9/10 ∨
    pyRound2 (pymin (1/2 + (1/10) * (c : ℚ)) (99/100)) = 99/100 := by
  rw [pyRound2_conf]
  by_cases hc : c ≤ 4
  · rw [if_pos hc]
    interval_cases c <;> norm_num
  · rw [if_neg hc]
    norm_num

theorem confFormula_ne_half (c : ℕ) (h : 1 ≤ c) :
    pyRound2 (pymin (1/2 + (1/10) * (c : ℚ)) (99/100)) ≠ 1/2 := by
  rcases confFormula_cases c h with h'|h'|h'|h'|h' <;> rw [h'] <;> norm_num

/-- C2: for every input string, the confidence returned by the
classifier lies between 0.50 and 0.99 inclusive. -/
theorem classify_confidence_bounds (text : String) :
    1/2 ≤ (predict_sentiment text).confidence ∧
      (predict_sentiment text).confidence ≤ 99/100 := by
  rw [predict_sentiment_def]
  by_cases h1 : pos_count text > neg_count text
  · rw [if_pos h1]
    exact confFormula_bounds (pos_count text)
  · rw [if_neg h1]
    by_cases h2 : neg_count text > pos_count text
    · rw [if_pos h2]
      exact confFormula_bounds (neg_count text)
    · rw [if_neg h2]
      show 1/2 ≤ pyRound2 (1/2) ∧ pyRound2 (1/2) ≤ 99/100
      rw [pyRound2_half]
      norm_num

/-- C3: the classifier labels a text neutral exactly when its confidence
is exactly 0.50. -/
theorem classify_neutral_iff (text : String) :
    (predict_sentiment text).label = "neutral" ↔
      (predict_sentiment text).confidence = 1/2 := by
  rw [predict_sentiment_def]
  by_cases h1 : pos_count text > neg_count text
  · rw [if_pos h1]
    constructor
    · intro h
      exact absurd (show ("positive" : String) = "neutral" from h) (by decide)
    · intro h
      exact absurd h (confFormula_ne_half (pos_count text) (by omega))
  · rw [if_neg h1]
    by_cases h2 : neg_count text > pos_count text
    · rw [if_pos h2]
      constructor
      · intro h
        exact absurd (show ("negative" : String) = "neutral" from h) (by decide)
      · intro h
        exact absurd h (confFormula_ne_half (neg_count text) (by omega))
    · rw [if_neg h2]
      constructor
      · intro _
        exact pyRound2_half
      · intro _
        rfl

/-- C10: the confidence is always one of the six exact values
0.50, 0.60, 0.70, 0.80, 0.90, 0.99. -/
theorem classify_confidence_six_values (text : String) :
    (predict_sentiment text).confidence ∈
      ({1/2, 3/5, 7/10, 4/5, 9/10, 99/100} : Set ℚ) := by
  rw [predict_sentiment_def]
  by_cases h1 : pos_count text > neg_count text
  · rw [if_pos h1]
    show pyRound2 (pymin (1/2 + (1/10) * (pos_count text : ℚ)) (99/100)) ∈ _
    rcases confFormula_cases (pos_count text) (by omega) with h|h|h|h|h <;>
      rw [h] <;> norm_num [Set.mem_insert_iff, Set.mem_singleton_iff]
  · rw [if_neg h1]
    by_cases h2 : neg_count text > pos_count text
    · rw [if_pos h2]
      show pyRound2 (pymin (1/2 + (1/10) * (neg_count text : ℚ)) (99/100)) ∈ _
      rcases confFormula_cases (neg_count text) (by omega) with h|h|h|h|h <;>
        rw [h] <;> norm_num [Set.mem_insert_iff, Set.mem_singleton_iff]
    · rw [if_neg h2]
      show pyRound2 (1/2) ∈ _
      rw [pyRound2_half]
      norm_num [Set.mem_insert_iff]

/-! ### C1: the decision rule, stated the way the spec words it -/

theorem count_eq_card_inter (L T : List String) (hL : L.Nodup) :
    (L.filter (fun w => decide (w ∈ T))).length = (T.toFinset ∩ L.toFinset).card := by
  rw [Finset.inter_comm, ← List.toFinset_card_of_nodup (hL.filter _), List.toFinset_filter]
  have hpred : (L.toFinset.filter fun a => decide (a ∈ T) = true) =
      L.toFinset.filter (fun a => a ∈ T.toFinset) :=
    Finset.filter_congr (by simp)
  rw [hpred]
  congr 1

theorem pos_count_eq_card (text : String) :
    pos_count text = ((tokens text).toFinset ∩ POSITIVE_WORDS.toFinset).card :=
  count_eq_card_inter POSITIVE_WORDS (tokens text) (by decide)

theorem neg_count_eq_card (text : String) :
    neg_count text = ((tokens text).toFinset ∩ NEGATIVE_WORDS.toFinset).card :=
  count_eq_card_inter NEGATIVE_WORDS (tokens text) (by decide)

/-- The decision rule exactly as the specification words it: `posCount`
is the cardinality of the intersection of the set of unique lowercased
whitespace tokens with the positive lexicon (as a `Finset`), `negCount`
likewise; the comparison cascade picks the label, the confidence is
`min(0.50 + 0.10 * count, 0.99)` rounded to two decimals (standard
rounding), and a tie — including the all-zero case — is neutral with
confidence exactly 0.50. -/
def ClassifySentimentSpec (text : String) : PredictionResult :=
  if ((tokens text).toFinset ∩ POSITIVE_WORDS.toFinset).card >
      ((tokens text).toFinset ∩ NEGATIVE_WORDS.toFinset).card then
    ⟨"positive", roundSpec2 (min
      (1/2 + (1/10) * (((tokens text).toFinset ∩ POSITIVE_WORDS.toFinset).card : ℚ)) (99/100))⟩
  else if ((tokens text).toFinset ∩ NEGATIVE_WORDS.toFinset).card >
      ((tokens text).toFinset ∩ POSITIVE_WORDS.toFinset).card then
    ⟨"negative", roundSpec2 (min
      (1/2 + (1/10) * (((tokens text).toFinset ∩ NEGATIVE_WORDS.toFinset).card : ℚ)) (99/100))⟩
  else
    ⟨"neutral", 1/2⟩

theorem pyRound2_pymin_eq_roundSpec2_min (c : ℕ) :
    pyRound2 (pymin (1/2 + (1/10) * (c : ℚ)) (99/100)) =
      roundSpec2 (min (1/2 + (1/10) * (c : ℚ)) (99/100)) := by
  rw [pyRound2_conf, roundSpec2_conf]

/-- C1: for every input string the classifier follows the specification
decision rule exactly (unique-token counts against each lexicon,
strict-majority label, `min(0.50 + 0.10 * count, 0.99)` confidence
rounded to two decimals, ties neutral at exactly 0.50). -/
theorem classify_follows_decision_rule (text : String) :
    predict_sentiment text = ClassifySentimentSpec text := by
  rw [predict_sentiment_def]
  unfold ClassifySentimentSpec
  rw [← pos_count_eq_card text, ← neg_count_eq_card text]
  by_cases h1 : pos_count text > neg_count text
  · rw [if_pos h1, if_pos h1, pyRound2_pymin_eq_roundSpec2_min]
  · rw [if_neg h1, if_neg h1]
    by_cases h2 : neg_count text > pos_count text
    · rw [if_pos h2, if_pos h2, pyRound2_pymin_eq_roundSpec2_min]
    · rw [if_neg h2, if_neg h2, pyRound2_half]

/-! ### C6, C8, C9: case-insensitivity, lexicon invariants, whitespace -/

/-- C6: tokenization is case-insensitive — any two strings with the same
lowercasing (in particular a string and any casing variant of it, such
as `GREAT` versus `great`) classify identically. -/
theorem classify_case_insensitive (s t : String) (h : pyLower s = pyLower t) :
    predict_sentiment s = predict_sentiment t := by
  have htok : tokens s = tokens t := by
    unfold tokens
    rw [h]
  unfold predict_sentiment pos_count neg_count
  rw [htok]

theorem classify_case_insensitive_witness :
    pyLower "GREAT" = pyLower "great" ∧
      predict_sentiment "GREAT" = predict_sentiment "great" :=
  ⟨by decide, classify_case_insensitive "GREAT" "great" (by decide)⟩

/-- C8: the two lexicons are disjoint and every word in them is
lowercase (fixed by `pyLower`). -/
theorem lexicons_disjoint_and_lowercase :
    (∀ w ∈ POSITIVE_WORDS, w ∉ NEGATIVE_WORDS) ∧
      (∀ w ∈ POSITIVE_WORDS ++ NEGATIVE_WORDS, pyLower w = w) := by
  decide

theorem lexicons_disjoint_and_lowercase_witness :
    "good" ∉ NEGATIVE_WORDS ∧ pyLower "terrible" = "terrible" :=
  ⟨lexicons_disjoint_and_lowercase.1 "good" (by decide),
   lexicons_disjoint_and_lowercase.2 "terrible" (by decide)⟩

theorem toLower_of_isPySpace (c : Char) (h : isPySpace c = true) :
    Char.toLower c = c := by
  have h' : c = ' ' ∨ c = '\t' ∨ c = '\n' ∨ c = '\r' ∨ c = '\x0b' ∨ c = '\x0c' := by
    simpa [isPySpace] using h
  rcases h' with rfl|rfl|rfl|rfl|rfl|rfl <;> decide

theorem splitWSAux_all_space (l : List Char) (h : ∀ c ∈ l, isPySpace c = true) :
    splitWSAux l [] = [] := by
  induction l with
  | nil => rfl
  | cons c cs ih =>
    have hc : isPySpace c = true := h c (List.mem_cons_self c cs)
    have ih' := ih (fun d hd => h d (List.mem_cons_of_mem c hd))
    simp [splitWSAux, hc, ih']

/-- C9: the classifier is total; on the empty string and on any
all-whitespace string it returns neutral with confidence exactly 0.50. -/
theorem classify_whitespace_neutral (text : String)
    (h : ∀ c ∈ text.data, isPySpace c = true) :
    predict_sentiment text = ⟨"neutral", 1/2⟩ := by
  have htok : tokens text = [] := by
    unfold tokens pySplit
    apply splitWSAux_all_space
    intro c hc
    rcases List.mem_map.1 hc with ⟨d, hd, rfl⟩
    rw [toLower_of_isPySpace d (h d hd)]
    exact h d hd
  have hp : pos_count text = 0 := by
    unfold pos_count
    rw [htok]
    decide
  have hn : neg_count text = 0 := by
    unfold neg_count
    rw [htok]
    decide
  rw [predict_sentiment_def, hp, hn]
  norm_num [pyRound2_half]

theorem classify_whitespace_neutral_witness :
    (∀ c ∈ ("   " : String).data, isPySpace c = true) ∧
      predict_sentiment "   " = ⟨"neutral", 1/2⟩ :=
  ⟨by decide, classify_whitespace_neutral "   " (by decide)⟩

/-! ### C7: duplicate tokens collapse -/

theorem char_eq_of_toNat_eq {c d : Char} (h : c.toNat = d.toNat) : c = d :=
  Char.ext (UInt32.ext h)

theorem toNat_of_isPySpace (c : Char) (h : isPySpace c = true) :
    c.toNat = 32 ∨ c.toNat = 9 ∨ c.toNat = 10 ∨ c.toNat = 13 ∨
      c.toNat = 11 ∨ c.toNat = 12 := by
  have h' : c = ' ' ∨ c = '\t' ∨ c = '\n' ∨ c = '\r' ∨ c = '\x0b' ∨ c = '\x0c' := by
    simpa [isPySpace] using h
  rcases h' with rfl|rfl|rfl|rfl|rfl|rfl <;> decide

theorem isPySpace_toLower (c : Char) (h : isPySpace c = false) :
    isPySpace (Char.toLower c) = false := by
  show isPySpace (if c.toNat ≥ 65 ∧ c.toNat ≤ 90 then Char.ofNat (c.toNat + 32) else c) = false
  by_cases hcond : c.toNat ≥ 65 ∧ c.toNat ≤ 90
  · rw [if_pos hcond]
    by_contra hx
    have hx' : isPySpace (Char.ofNat (c.toNat + 32)) = true := by
      revert hx
      cases isPySpace (Char.ofNat (c.toNat + 32)) <;> simp
    have hvalid : (c.toNat + 32).isValidChar := Or.inl (by omega)
    have hval : (Char.ofNat (c.toNat + 32)).toNat = c.toNat + 32 := by
      unfold Char.ofNat
      rw [dif_pos hvalid]
      rfl
    have hmem := toNat_of_isPySpace _ hx'
    rw [hval] at hmem
    omega
  · rw [if_neg hcond]
    exact h

theorem splitWSAux_append_nonspace (w t acc : List Char)
    (h : ∀ c ∈ w, isPySpace c = false) :
    splitWSAux (w ++ t) acc = splitWSAux t (w.reverse ++ acc) := by
  induction w generalizing acc with
  | nil => simp
  | cons c cs ih =>
    have hc : isPySpace c = false := h c (List.mem_cons_self c cs)
    have ih' := fun acc' => ih acc' (fun d hd => h d (List.mem_cons_of_mem c hd))
    show splitWSAux (c :: (cs ++ t)) acc = _
    rw [show splitWSAux (c :: (cs ++ t)) acc = splitWSAux (cs ++ t) (c :: acc) by
      simp [splitWSAux, hc]]
    rw [ih' (c :: acc)]
    simp

theorem splitWSAux_nil_acc (acc : List Char) (h : acc ≠ []) :
    splitWSAux [] acc = [String.mk acc.reverse] := by
  cases acc with
  | nil => exact absurd rfl h
  | cons c cs => rfl

theorem splitWSAux_space_cons (c : Char) (rest : List Char) (a : Char)
    (as : List Char) (hc : isPySpace c = true) :
    splitWSAux (c :: rest) (a :: as) =
      String.mk (a :: as).reverse :: splitWSAux rest [] := by
  simp [splitWSAux, hc]

/-- The text `w w ... w` — `n + 1` copies of `w` joined by single
spaces — used to state the duplicate-collapse claim. -/
def repeatedText (w : String) : Nat → String
  | 0 => w
  | n + 1 => w ++ " " ++ repeatedText w n

theorem repeatedText_data_succ (w : String) (n : ℕ) :
    (repeatedText w (n + 1)).data = w.data ++ (' ' :: (repeatedText w n).data) := by
  show (w ++ " " ++ repeatedText w n).data = _
  rw [String.data_append, String.data_append, List.append_assoc]
  rfl

theorem pyLower_repeatedText (w : String) (n : ℕ) :
    pyLower (repeatedText w n) = repeatedText (pyLower w) n := by
  induction n with
  | zero => rfl
  | succ n ih =>
    have ih' : ((repeatedText w n).data).map Char.toLower =
        (repeatedText (pyLower w) n).data := congrArg String.data ih
    apply String.ext
    show ((repeatedText w (n + 1)).data).map Char.toLower =
      (repeatedText (pyLower w) (n + 1)).data
    rw [repeatedText_data_succ, repeatedText_data_succ, List.map_append,
      List.map_cons, ih']
    rfl

theorem pySplit_repeated (x : String) (hne : x.data ≠ [])
    (hns : ∀ c ∈ x.data, isPySpace c = false) (n : ℕ) :
    pySplit (repeatedText x n) = List.replicate (n + 1) x := by
  induction n with
  | zero =>
    show splitWSAux x.data [] = [x]
    have h1 : splitWSAux (x.data ++ []) [] = splitWSAux [] (x.data.reverse ++ []) :=
      splitWSAux_append_nonspace x.data [] [] hns
    rw [List.append_nil, List.append_nil] at h1
    rw [h1, splitWSAux_nil_acc _ (by simpa using hne)]
    simp
  | succ n ih =>
    show splitWSAux (repeatedText x (n + 1)).data [] = _
    rw [repeatedText_data_succ, splitWSAux_append_nonspace x.data _ [] hns,
      List.append_nil]
    cases hrev : x.data.reverse with
    | nil => exact absurd (by simpa using hrev) hne
    | cons a as =>
      rw [splitWSAux_space_cons ' ' _ a as (by decide)]
      rw [← hrev]
      have hx : String.mk x.data.reverse.reverse = x := by simp
      rw [hx]
      show _ = List.replicate (n + 2) x
      rw [show splitWSAux (repeatedText x n).data [] = pySplit (repeatedText x n) from rfl, ih]
      rfl

/-- C7: duplicate words do not inflate confidence — any number of
repetitions of a single (non-empty, whitespace-free) word classifies
exactly like one occurrence of it. -/
theorem classify_duplicates_collapse (w : String) (n : ℕ)
    (hne : w.data ≠ []) (hns : ∀ c ∈ w.data, isPySpace c = false) :
    predict_sentiment (repeatedText w n) = predict_sentiment w := by
  have hlne : (pyLower w).data ≠ [] := by
    show w.data.map Char.toLower ≠ []
    simpa using hne
  have hlns : ∀ c ∈ (pyLower w).data, isPySpace c = false := by
    intro c hc
    rcases List.mem_map.1 hc with ⟨d, hd, rfl⟩
    exact isPySpace_toLower d (hns d hd)
  have htok_rep : tokens (repeatedText w n) = List.replicate (n + 1) (pyLower w) := by
    unfold tokens
    rw [pyLower_repeatedText]
    exact pySplit_repeated (pyLower w) hlne hlns n
  have htok_w : tokens w = [pyLower w] := by
    have h0 := pySplit_repeated (pyLower w) hlne hlns 0
    simpa using h0
  have hmem : ∀ u : String, (u ∈ tokens (repeatedText w n)) ↔ (u ∈ tokens w) := by
    intro u
    rw [htok_rep, htok_w]
    simp [List.mem_replicate]
  have hp : pos_count (repeatedText w n) = pos_count w := by
    unfold pos_count
    exact congrArg List.length
      (List.filter_congr (fun u _ => decide_eq_decide.2 (hmem u)))
  have hn : neg_count (repeatedText w n) = neg_count w := by
    unfold neg_count
    exact congrArg List.length
      (List.filter_congr (fun u _ => decide_eq_decide.2 (hmem u)))
  rw [predict_sentiment_def, predict_sentiment_def, hp, hn]

theorem classify_duplicates_collapse_witness :
    repeatedText "good" 2 = "good good good" ∧
      ("good" : String).data ≠ [] ∧
      (∀ c ∈ ("good" : String).data, isPySpace c = false) ∧
      predict_sentiment "good good good" = predict_sentiment "good" := by
  refine ⟨by decide, by decide, by decide, ?_⟩
  have h := classify_duplicates_collapse "good" 2 (by decide) (by decide)
  rwa [show repeatedText "good" 2 = "good good good" by decide] at h

/-! ### The `/predict` handler (C4, C5) -/

/-- JSON values, as produced by `request.get_json`. -/
inductive Json where
  | null : Json
  | bool : Bool → Json
  | num : ℚ → Json
  | str : String → Json
  | arr : List Json → Json
  | obj : List (String × Json) → Json

/-- Contiguous-substring test on character lists, the semantics of the
Python string membership operator `in`. -/
def isSubstrList (needle : List Char) : List Char → Bool
  | [] => needle.isEmpty
  | c :: cs => needle.isPrefixOf (c :: cs) || isSubstrList needle cs

/-- The Python membership test `"text" in data` with its type-dependent
semantics: key membership on a dict, element membership on a list
(a JSON element equals the Python string `"text"` exactly when it is
that string), substring membership on a string; on a number or boolean
the test raises `TypeError`, modelled as `none`.  The JSON value `null`
never reaches this test: `request.get_json` turns it into Python
`None`, which the `data is None` disjunct catches first. -/
def pyInText : Json → Option Bool
  | Json.obj fields => some (fields.any (fun p => p.1 == "text"))
  | Json.arr xs => some (xs.any (fun x =>
      match x with
      | Json.str s => s == "text"
      | _ => false))
  | Json.str s => some (isSubstrList ("text" : String).data s.data)
  | _ => none

/-- The Python subscript `data["text"]`, reached only after the
membership test succeeded: key lookup on a dict; on a list or a string
the non-integer index raises `TypeError`, modelled as `none`. -/
def pySubscriptText : Json → Option Json
  | Json.obj fields => (fields.find? (fun p => p.1 == "text")).map (fun p => p.2)
  | _ => none

/-- One emitted log line: `logger.warning(msg)`, or
`logger.info("Prediction: %s (confidence=%.2f)", label, confidence)`
carrying the interpolated label and confidence. -/
inductive LogEvent where
  | warning : String → LogEvent
  | info : String → ℚ → LogEvent
deriving DecidableEq

/-- The Python method `str.strip()`: drop leading and trailing whitespace. -/
def pyStrip (s : String) : String :=
  ⟨((s.data.dropWhile isPySpace).reverse.dropWhile isPySpace).reverse⟩

structure HttpResponse where
  status : ℕ
  body : Json
  logs : List LogEvent

/-- Outcome of one request: either a response the route handler
returned, or an unhandled `TypeError` escaping it — Flask then answers
500 Internal Server Error, and the application has logged nothing. -/
inductive HandlerResult where
  | ok : HttpResponse → HandlerResult
  | crash : HandlerResult

/-- Status and response body of an outcome, `none` when the handler
crashed instead of returning a response. -/
def outcomeOf : HandlerResult → Option (ℕ × Json)
  | HandlerResult.ok r => some (r.status, r.body)
  | HandlerResult.crash => none

/-- The log lines the application emitted while handling the request;
a crash happens before any logging statement, so it emits none. -/
def logsOf : HandlerResult → List LogEvent
  | HandlerResult.ok r => r.logs
  | HandlerResult.crash => []

/-- The single `data is None or "text" not in data` failure branch of
the source: HTTP 400 with the missing-field error object and one
warning log line. -/
def missingTextResponse : HttpResponse :=
  ⟨400, Json.obj [("error", Json.str "Request must include a \x27text\x27 field")],
    [LogEvent.warning "Bad request: missing \x27text\x27 field"]⟩

/-- The `/predict` route handler (`app.py`, lines 49–64) as a function
of the parsed request body.  `none` models an absent or unparseable
body and `some Json.null` the JSON value `null`: in all those cases
`request.get_json(silent=True)` yields Python `None`, caught by the
`data is None` test.  The membership test and the subscript keep their
Python `TypeError` behaviour on non-dict bodies, so a parseable number
or boolean body, a string body containing `text` as a substring, and an
array body containing the element `"text"` all crash. -/
def predictHandler (body : Option Json) : HandlerResult :=
  match body with
  | none => HandlerResult.ok missingTextResponse
  | some Json.null => HandlerResult.ok missingTextResponse
  | some data =>
    match pyInText data with
    | none => HandlerResult.crash
    | some false => HandlerResult.ok missingTextResponse
    | some true =>
      match pySubscriptText data with
      | none => HandlerResult.crash
      | some (Json.str text) =>
        if (pyStrip text).length = 0 then
          HandlerResult.ok ⟨400,
            Json.obj [("error", Json.str "\x27text\x27 must be a non-empty string")], []⟩
        else
          HandlerResult.ok ⟨200,
            Json.obj [("label", Json.str (predict_sentiment text).label),
              ("confidence", Json.num (predict_sentiment text).confidence)],
            [LogEvent.info (predict_sentiment text).label
              (predict_sentiment text).confidence]⟩
      | some _ =>
        HandlerResult.ok ⟨400,
          Json.obj [("error", Json.str "\x27text\x27 must be a non-empty string")], []⟩

example : predictHandler (some Json.null) = HandlerResult.ok missingTextResponse := rfl
example : predictHandler (some (Json.bool true)) = HandlerResult.crash := rfl
example : predictHandler (some (Json.str "context")) = HandlerResult.crash := rfl
example : predictHandler (some (Json.arr [Json.str "text"])) = HandlerResult.crash := rfl
example : predictHandler (some (Json.str "hello")) = HandlerResult.ok missingTextResponse := rfl
example : predictHandler (some (Json.arr [Json.num 1])) = HandlerResult.ok missingTextResponse := rfl

/-- C4 counterexample: the body `5` is parseable and lacks a `text`
key, so the claim demands a 400 with an error object; but
`"text" not in 5` raises `TypeError`, the handler produces no response
at all, and Flask answers with its generic 500. -/
theorem predict_nonobject_crashes :
    predictHandler (some (Json.num 5)) = HandlerResult.crash ∧
      outcomeOf (predictHandler (some (Json.num 5))) = none :=
  ⟨rfl, rfl⟩

/-- The validation cascade stated declaratively (status and response
only), including the crash surface: a `None` body (absent, unparseable
or JSON `null`) or a failed membership test gives 400 with the
missing-field error object, first failure winning; a non-string or
blank `text` value gives 400 with the non-empty-string error object;
otherwise the classifier runs on the raw (untrimmed) text and the
result is returned with 200; and a parseable non-dict body on which the
membership test or the subscript raises `TypeError` yields no response
(`none` — Flask answers 500). -/
def predictSpecOutcome (body : Option Json) : Option (ℕ × Json) :=
  match body with
  | none =>
    some (400, Json.obj [("error", Json.str "Request must include a \x27text\x27 field")])
  | some Json.null =>
    some (400, Json.obj [("error", Json.str "Request must include a \x27text\x27 field")])
  | some data =>
    match pyInText data with
    | none => none
    | some false =>
      some (400, Json.obj [("error", Json.str "Request must include a \x27text\x27 field")])
    | some true =>
      match pySubscriptText data with
      | none => none
      | some (Json.str text) =>
        if (pyStrip text).length = 0 then
          some (400, Json.obj [("error", Json.str "\x27text\x27 must be a non-empty string")])
        else
          some (200, Json.obj [("label", Json.str (predict_sentiment text).label),
            ("confidence", Json.num (predict_sentiment text).confidence)])
      | some _ =>
        some (400, Json.obj [("error", Json.str "\x27text\x27 must be a non-empty string")])

/-- C4 (amended): the handler applies the validations in order, first
failure winning — 400 for a `None` body (absent, unparseable or JSON
`null`), for a body whose membership test finds no `text`, and for an
object whose `text` value is not a string or is blank after trimming;
200 with the classifier result on the raw (untrimmed) text otherwise —
except that on parseable non-dict bodies where the Python membership
test or subscript raises `TypeError` (numbers, booleans, strings with
`text` as a substring, arrays containing `"text"`), it crashes and
returns no response (Flask 500). -/
theorem predict_validation_order (body : Option Json) :
    outcomeOf (predictHandler body) = predictSpecOutcome body := by
  rcases body with _ | data
  · rfl
  · rcases data with _ | b | q | s | xs | fields
    · rfl
    · rfl
    · rfl
    · simp only [predictHandler, predictSpecOutcome, pyInText]
      cases hin : isSubstrList ("text" : String).data s.data <;>
        simp [hin, pySubscriptText, outcomeOf, missingTextResponse]
    · simp only [predictHandler, predictSpecOutcome, pyInText]
      cases hin : xs.any (fun x =>
          match x with
          | Json.str s => s == "text"
          | _ => false) <;> simp [hin, pySubscriptText, outcomeOf, missingTextResponse]
    · simp only [predictHandler, predictSpecOutcome, pyInText]
      cases hin : fields.any (fun p => p.1 == "text")
      · simp [hin, outcomeOf, missingTextResponse]
      · rcases hsub : (fields.find? (fun p => p.1 == "text")).map (fun p => p.2) with _ | v
        · simp [hin, pySubscriptText, hsub, outcomeOf]
        · rcases v with _ | b | q | text | xs2 | f2
          · simp [hin, pySubscriptText, hsub, outcomeOf]
          · simp [hin, pySubscriptText, hsub, outcomeOf]
          · simp [hin, pySubscriptText, hsub, outcomeOf]
          · by_cases hlen : (pyStrip text).length = 0 <;>
              simp [hin, pySubscriptText, hsub, hlen, outcomeOf]
          · simp [hin, pySubscriptText, hsub, outcomeOf]
          · simp [hin, pySubscriptText, hsub, outcomeOf]

/-- C5 counterexample: the body `{"text": 12345}` fails validation (the
handler returns 400) yet emits no log line at all — the non-string and
blank-text failures are unlogged, contradicting "one warning-level log
line for every request that fails validation". -/
theorem predict_failed_validation_unlogged :
    outcomeOf (predictHandler (some (Json.obj [("text", Json.num 12345)]))) =
      some (400, Json.obj [("error", Json.str "\x27text\x27 must be a non-empty string")]) ∧
      logsOf (predictHandler (some (Json.obj [("text", Json.num 12345)]))) = [] :=
  ⟨rfl, rfl⟩

/-- C5 (amended): the handler logs exactly one warning line when the
body is `None` (absent, unparseable or JSON `null`) or its membership
test finds no `text`; the `TypeError` crashes and the non-string and
blank-`text` validation failures emit no log line; a successful
prediction emits exactly one info line carrying the predicted label and
confidence. -/
theorem predict_log_behavior (body : Option Json) :
    logsOf (predictHandler body) =
      match body with
      | none => [LogEvent.warning "Bad request: missing \x27text\x27 field"]
      | some Json.null => [LogEvent.warning "Bad request: missing \x27text\x27 field"]
      | some data =>
        match pyInText data with
        | none => []
        | some false => [LogEvent.warning "Bad request: missing \x27text\x27 field"]
        | some true =>
          match pySubscriptText data with
          | none => []
          | some (Json.str text) =>
            if (pyStrip text).length = 0 then []
            else [LogEvent.info (predict_sentiment text).label
              (predict_sentiment text).confidence]
          | some _ => [] := by
  rcases body with _ | data
  · rfl
  · rcases data with _ | b | q | s | xs | fields
    · rfl
    · rfl
    · rfl
    · simp only [predictHandler, pyInText]
      cases hin : isSubstrList ("text" : String).data s.data <;> simp [hin, pySubscriptText, logsOf, missingTextResponse]
    · simp only [predictHandler, pyInText]
      cases hin : xs.any (fun x =>
          match x with
          | Json.str s => s == "text"
          | _ => false) <;> simp [hin, pySubscriptText, logsOf, missingTextResponse]
    · simp only [predictHandler, pyInText]
      cases hin : fields.any (fun p => p.1 == "text")
      · simp [hin, logsOf, missingTextResponse]
      · rcases hsub : (fields.find? (fun p => p.1 == "text")).map (fun p => p.2) with _ | v
        · simp [hin, pySubscriptText, hsub, logsOf]
        · rcases v with _ | b | q | text | xs2 | f2
          · simp [hin, pySubscriptText, hsub, logsOf]
          · simp [hin, pySubscriptText, hsub, logsOf]
          · simp [hin, pySubscriptText, hsub, logsOf]
          · by_cases hlen : (pyStrip text).length = 0 <;>
              simp [hin, pySubscriptText, hsub, hlen, logsOf]
          · simp [hin, pySubscriptText, hsub, logsOf]
          · simp [hin, pySubscriptText, hsub, logsOf]
